import Mathlib

/-!
Shallow embedding of the tf-manage2 `framework` package: the command Runner
(`runner.go`, concurrent-pump variant: `CmdFlags`, `CmdResult`, `parseCommand`,
`execSystemCommand`, `execCommand`, `RunCmd`, `parseStatus`) and the Status
Presenter (`printer.go`: color constants, `stripAnsiCodes`, `getVisualLength`).

Strings are modelled at the character level (Go iterates UTF-8 bytes; on the
ASCII delimiters the parser inspects, and on ASCII text, byte-level and
character-level behaviour coincide).  The operating system is modelled by an
explicit environment value (`ExecEnv`): pipe-creation errors, the start
outcome, the wait outcome and the lines the child writes to each stream.
The `os.Exit` call in `parseStatus` is modelled as an explicit `RunOutcome`.
-/

namespace TfManage

/-- Mirror of the Go struct `CmdFlags` (runner.go), fields in source order:
Strict, PrintCmd, DecorateOutput, PrintOutput, PrintMessage, PrintStatus,
PrintOutcome, StrictMessage, NoStrictMessage, ValidExitCodes. -/
structure CmdFlags where
  strict : Bool
  printCmd : Bool
  decorateOutput : Bool
  printOutput : Bool
  printMessage : Bool
  printStatus : Bool
  printOutcome : Bool
  strictMessage : String
  noStrictMessage : String
  validExitCodes : List Int
deriving Repr, DecidableEq

/-- Mirror of Go `DefaultCmdFlags()`: strict=false, printCmd=false,
decorateOutput=false, printOutput=true, printMessage=true, printStatus=true,
printOutcome=false, strictMessage="aborting...",
noStrictMessage="continuing...", validExitCodes=[0]. -/
def defaultCmdFlags : CmdFlags :=
  ⟨false, false, false, true, true, true, false,
   "aborting...", "continuing...", [0]⟩

/-- Mirror of the Go struct `CmdResult`: ExitCode, Success, Output, Error. -/
structure CmdResult where
  exitCode : Int
  success : Bool
  output : String
  error : String
deriving Repr, DecidableEq

/-- Whitespace predicate used by Go `strings.TrimSpace` via `unicode.IsSpace`:
space, tab, newline, vertical tab, form feed, carriage return, NEL (U+0085)
and NBSP (U+00A0).  (The further non-Latin-1 Unicode space code points are
not modelled; no claim concerns them.) -/
def isGoSpace (c : Char) : Bool :=
  c = ' ' || c = Char.ofNat 9 || c = Char.ofNat 10 || c = Char.ofNat 11 ||
  c = Char.ofNat 12 || c = Char.ofNat 13 || c = Char.ofNat 0x85 ||
  c = Char.ofNat 0xA0

/-- Mirror of Go `strings.TrimSpace`: drop leading and trailing whitespace. -/
def trimSpace (s : List Char) : List Char :=
  ((s.dropWhile isGoSpace).reverse.dropWhile isGoSpace).reverse

/-- The double-quote character. -/
def dquote : Char := Char.ofNat 34

/-- The single-quote character. -/
def squote : Char := Char.ofNat 39

/-- Body of the character loop of Go `parseCommand` (runner.go).  State:
remaining input, `current` token accumulator, `quoteChar` (`none` encodes
`inQuotes == false`), accumulated `parts`.  Mirrors the four-way branch of
the source and the final flush of a non-empty `current`. -/
def parseLoop : List Char → List Char → Option Char → List (List Char) →
    List (List Char)
  | [], current, _, parts =>
      if current.length > 0 then parts ++ [current] else parts
  | c :: rest, current, none, parts =>
      if c = dquote ∨ c = squote then
        parseLoop rest current (some c) parts
      else if c = ' ' then
        if current.length > 0 then parseLoop rest [] none (parts ++ [current])
        else parseLoop rest [] none parts
      else
        parseLoop rest (current ++ [c]) none parts
  | c :: rest, current, some q, parts =>
      if c = q then parseLoop rest current none parts
      else parseLoop rest (current ++ [c]) (some q) parts

/-- Mirror of Go `parseCommand` (runner.go): trim, run the character loop,
return `("", [])` when no parts remain, else head and tail of the parts. -/
def parseCommand (cmdStr : String) : String × List String :=
  let s := trimSpace cmdStr.toList
  if s = [] then ("", [])
  else
    match parseLoop s [] none [] with
    | [] => ("", [])
    | p :: rest => (String.mk p, rest.map String.mk)

/-- Outcome of Go `cmd.Wait()` as decoded by `execCommand`: `ok` is a nil
error (exit code 0), `exitErr c` is an `*exec.ExitError` carrying the child
exit code `c`, `otherErr` is any other error (decoded as exit code 1). -/
inductive WaitOutcome where
  | ok : WaitOutcome
  | exitErr : Int → WaitOutcome
  | otherErr : WaitOutcome
deriving Repr, DecidableEq

/-- Outcome of Go `cmd.Start()`: either a launch failure with an error
message, or a started process with its wait outcome and the lines it writes
to stdout and stderr (in per-stream order). -/
inductive StartResult where
  | failed : String → StartResult
  | started : WaitOutcome → List String → List String → StartResult
deriving Repr, DecidableEq

/-- Environment describing how the operating system behaves for one launch:
the error returned by `cmd.StdoutPipe()` / `cmd.StderrPipe()` if any, and
the start outcome. -/
structure ExecEnv where
  stdoutPipeErr : Option String
  stderrPipeErr : Option String
  start : StartResult
deriving Repr, DecidableEq

/-- Exit-code decoding of `cmd.Wait()` in Go `execCommand`: nil error is 0,
an `ExitError` yields its code, any other error yields 1. -/
def exitCodeOfWait : WaitOutcome → Int
  | WaitOutcome.ok => 0
  | WaitOutcome.exitErr c => c
  | WaitOutcome.otherErr => 1

/-- Mirror of the validity loop of Go `execCommand`: scan
`flags.ValidExitCodes` for the exit code. -/
def isValidExit (valid : List Int) (code : Int) : Bool :=
  valid.any (fun v => code = v)

/-- Per-stream capture of the pump goroutines of Go `execCommand`: each
scanned line is appended to the buffer followed by a newline. -/
def joinLines (lines : List String) : String :=
  lines.foldl (fun acc l => acc ++ l ++ "\n") ""

/-- Mirror of Go `execCommand` (runner.go).  `isInteractive` is
`!flags.DecorateOutput`.  Pass-through mode wires the child to the host
streams, so the result captures nothing (`Output`/`Error` empty) unless
`Start` fails.  Pipe-capture mode first creates the stdout pipe, then the
stderr pipe, then starts; any of those errors yields
`{ExitCode: 1, Success: false, Error: message}`.  Otherwise the pumps fill
`Output` with the stdout lines and `Error` with the stderr lines, and the
exit code is decoded from `Wait`. -/
def execCommand (env : ExecEnv) (flags : CmdFlags) : CmdResult :=
  if flags.decorateOutput = false then
    match env.start with
    | StartResult.failed msg => ⟨1, false, "", msg⟩
    | StartResult.started w _ _ =>
        let ec := exitCodeOfWait w
        ⟨ec, isValidExit flags.validExitCodes ec, "", ""⟩
  else
    match env.stdoutPipeErr with
    | some e => ⟨1, false, "", e⟩
    | none =>
      match env.stderrPipeErr with
      | some e => ⟨1, false, "", e⟩
      | none =>
        match env.start with
        | StartResult.failed msg => ⟨1, false, "", msg⟩
        | StartResult.started w outLines errLines =>
            let ec := exitCodeOfWait w
            ⟨ec, isValidExit flags.validExitCodes ec,
             joinLines outLines, joinLines errLines⟩

/-- Mirror of Go `execSystemCommand` (runner.go): an all-whitespace command
fails with "empty command"; a parse yielding no program likewise; otherwise
the parsed program and arguments are launched under the environment
`envf program args`. -/
def execSystemCommand (command : String) (flags : CmdFlags)
    (envf : String → List String → ExecEnv) : CmdResult :=
  if trimSpace command.toList = [] then ⟨1, false, "", "empty command"⟩
  else
    let pa := parseCommand command
    if pa.1 = "" then ⟨1, false, "", "empty command"⟩
    else execCommand (envf pa.1 pa.2) flags

/-- Exit effect of Go `parseStatus` (runner.go): it returns immediately when
`PrintStatus` is false; otherwise, after printing, it calls
`os.Exit(result.ExitCode)` exactly when the result is unsuccessful and
`flags.Strict` holds.  `some code` models that call. -/
def parseStatusExit (result : CmdResult) (flags : CmdFlags) : Option Int :=
  if flags.printStatus = false then none
  else if result.success = false ∧ flags.strict = true then
    some result.exitCode
  else none

/-- Observable outcome of one `RunCmd` call: either control returns to the
caller with a result, or the whole program exits with a status. -/
inductive RunOutcome where
  | returned : CmdResult → RunOutcome
  | exited : Int → RunOutcome
deriving Repr, DecidableEq

/-- Mirror of Go `RunCmd` (runner.go): nil flags are replaced by
`DefaultCmdFlags()`; the command is executed by `execSystemCommand`; then
`parseStatus` runs, and its `os.Exit` (if any) preempts the return.  The
`failMessage` variadic only affects printing, never the outcome. -/
def runCmd (command message : String) (flagsOpt : Option CmdFlags)
    (envf : String → List String → ExecEnv) (failMessage : Option String) :
    RunOutcome :=
  let flags := flagsOpt.getD defaultCmdFlags
  let result := execSystemCommand command flags envf
  match parseStatusExit result flags with
  | some code => RunOutcome.exited code
  | none => RunOutcome.returned result

/-- Flags built by Go `RunCmdStrict`: defaults with Strict=true,
PrintOutput=false, PrintMessage=false, PrintOutcome=false (PrintStatus stays
true). -/
def runCmdStrictFlags : CmdFlags :=
  ⟨true, false, false, false, false, true, false,
   "aborting...", "continuing...", [0]⟩

/-- Flags built by Go `RunCmdSilentStrict`: defaults with Strict=true,
PrintOutput=false, PrintMessage=false, PrintStatus=false,
PrintOutcome=false. -/
def runCmdSilentStrictFlags : CmdFlags :=
  ⟨true, false, false, false, false, false, false,
   "aborting...", "continuing...", [0]⟩

/-- Benign environment: every launch starts, waits with a nil error and
writes nothing. -/
def trivEnvF : String → List String → ExecEnv :=
  fun _ _ => ⟨none, none, StartResult.started WaitOutcome.ok [] []⟩

/-! ### Printer (printer.go) -/

/-- The ASCII escape character, `\033`. -/
def escChar : Char := Char.ofNat 27

/-- Go constant `Reset` = `"\033[0m"`, as characters. -/
def ansiReset : List Char := [escChar, '[', '0', 'm']

/-- Go constant `Red` = `"\033[31m"`, as characters. -/
def ansiRed : List Char := [escChar, '[', '3', '1', 'm']

/-- Go constant `Green` = `"\033[32m"`, as characters. -/
def ansiGreen : List Char := [escChar, '[', '3', '2', 'm']

/-- Go constant `Gray` = `"\033[30;1m"`, as characters. -/
def ansiGray : List Char := [escChar, '[', '3', '0', ';', '1', 'm']

/-- Go `AddEmphasisRed`: `Red + text + Reset`. -/
def addEmphasisRed (text : List Char) : List Char := ansiRed ++ text ++ ansiReset

/-- Go `AddEmphasisGreen`: `Green + text + Reset`. -/
def addEmphasisGreen (text : List Char) : List Char :=
  ansiGreen ++ text ++ ansiReset

/-- Go `AddEmphasisGray`: `Gray + text + Reset`. -/
def addEmphasisGray (text : List Char) : List Char := ansiGray ++ text ++ ansiReset

/-- Go constant `CheckMark` = `"✓"`. -/
def checkMark : Char := Char.ofNat 0x2713

/-- Go constant `CrossMark` = `"✗"`. -/
def crossMark : Char := Char.ofNat 0x2717

/-- Character class `[0-9;]` of the ANSI regex in `stripAnsiCodes`. -/
def isParamChar (c : Char) : Bool := (Char.ofNat 48 ≤ c ∧ c ≤ Char.ofNat 57) ∨ c = ';'

/-- Consume `[0-9;]*` followed by a literal `m`; return the remaining input,
or `none` when the regex tail does not match at this position. -/
def consumeParams : List Char → Option (List Char)
  | [] => none
  | c :: rest =>
      if c = 'm' then some rest
      else if isParamChar c then consumeParams rest
      else none

/-- Match the part of the ANSI regex after the escape character: a literal
`[`, then `[0-9;]*m`; return the input after the match. -/
def matchAnsiTail : List Char → Option (List Char)
  | c :: rest => if c = '[' then consumeParams rest else none
  | [] => none

/-- Termination measure fact: `consumeParams` only ever returns a strict
suffix of its input. -/
def consumeParamsLengthLt : ∀ {l r : List Char}, consumeParams l = some r →
    r.length < l.length := by
  intro l
  induction l with
  | nil => intro r h; simp [consumeParams] at h
  | cons c rest ih =>
      intro r h
      by_cases hm : c = 'm'
      · simp [consumeParams, hm] at h
        subst h; simp
      · by_cases hp : isParamChar c = true
        · simp [consumeParams, hm, hp] at h
          exact Nat.lt_trans (ih h) (by simp)
        · simp [consumeParams, hm, hp] at h

/-- Termination measure fact: `matchAnsiTail` only ever returns a strict
suffix of its input. -/
def matchAnsiTailLengthLt : ∀ {l r : List Char}, matchAnsiTail l = some r →
    r.length < l.length := by
  intro l r h
  cases l with
  | nil => simp [matchAnsiTail] at h
  | cons c rest =>
      simp only [matchAnsiTail] at h
      split at h
      · exact Nat.lt_trans (consumeParamsLengthLt h) (by simp)
      · cases h

/-- Mirror of Go `stripAnsiCodes` (printer.go): remove every leftmost match
of the regex `\x1b\[[0-9;]*m`, scanning left to right; characters that do
not begin a match are kept. -/
def stripAnsiCodes (l : List Char) : List Char :=
  match l with
  | [] => []
  | c :: rest =>
      if c = escChar then
        match h : matchAnsiTail rest with
        | some rest2 =>
            have : rest2.length < rest.length := matchAnsiTailLengthLt h
            stripAnsiCodes rest2
        | none => c :: stripAnsiCodes rest
      else c :: stripAnsiCodes rest
termination_by l.length
decreasing_by
  · simp only [List.length_cons]; omega
  · simp
  · simp

/-- Mirror of Go `getVisualLength` (printer.go): the length of the string
with ANSI codes stripped.  Go measures `len` in bytes; this model measures
characters, which coincides on ASCII text (every string the program itself
builds here is ASCII apart from the status glyphs, whose width the source
hard-codes separately). -/
def getVisualLength (s : List Char) : Nat := (stripAnsiCodes s).length

/-- Bracket wrapping `fmt.Sprintf("[%s]", s)` used for the entrypoint tag. -/
def bracketed (s : List Char) : List Char := '[' :: (s ++ [']'])

/-- Status indicator of `parseStatus`: `"[ ✓ ]"` with a green check on
success, `"[ ✗ ]"` with a red cross on failure (glyph colored, brackets
plain). -/
def statusIndicatorFor (success : Bool) : List Char :=
  if success then '[' :: ' ' :: (addEmphasisGreen [checkMark] ++ [' ', ']'])
  else '[' :: ' ' :: (addEmphasisRed [crossMark] ++ [' ', ']'])

/-- Outcome annotation of `parseStatus`: `"(done)"` on success, otherwise
the strict or non-strict message, red, in parentheses. -/
def outcomeMessageFor (success : Bool) (flags : CmdFlags) : List Char :=
  if success then ['(', 'd', 'o', 'n', 'e', ')']
  else
    '(' :: (addEmphasisRed
      (if flags.strict then flags.strictMessage.toList
       else flags.noStrictMessage.toList) ++ [')'])

/-- Padding computation of `parseStatus`: `totalWidth = 120` minus the
entrypoint visual length, one space, the message visual length, one space
and the hard-coded status width 5; clamped below by 1. -/
def paddingWidthFor (entryVisualLen msgVisualLen : Nat) : Nat :=
  let p : Int := 120 - (entryVisualLen : Int) - 1 - (msgVisualLen : Int) - 1 - 5
  if p < 1 then 1 else p.toNat

/-- The aligned status line built by `parseStatus` before the optional
outcome suffix: gray entrypoint tag, space, message, padding spaces, space,
status indicator (`fmt.Sprintf("%s %s%*s %s", ...)`). -/
def statusLineBase (entryScript msg : List Char) (success : Bool) : List Char :=
  let entrypoint := bracketed entryScript
  let pw := paddingWidthFor (getVisualLength entrypoint) (getVisualLength msg)
  addEmphasisGray entrypoint ++ (' ' :: msg) ++ List.replicate pw ' ' ++
    (' ' :: statusIndicatorFor success)

/-- The full line printed by `parseStatus`: the aligned base line, plus the
outcome annotation when `PrintOutcome` is set and the annotation is
non-empty. -/
def statusLineFull (entryScript msg : List Char) (result : CmdResult)
    (flags : CmdFlags) : List Char :=
  let base := statusLineBase entryScript msg result.success
  if flags.printOutcome ∧ outcomeMessageFor result.success flags ≠ [] then
    base ++ (' ' :: outcomeMessageFor result.success flags)
  else base

/-- ASCII text containing no escape character: on such text the model's
character count agrees with Go's byte count, and ANSI stripping is the
identity. -/
def isAsciiNoEsc (s : List Char) : Bool :=
  s.all (fun c => c.toNat < 128 ∧ c ≠ escChar)

/-! ### Concrete scenario data used by the theorems below -/

/-- Default flags with `ValidExitCodes = [1]`. -/
def flagsValid1 : CmdFlags :=
  ⟨false, false, false, true, true, true, false,
   "aborting...", "continuing...", [1]⟩

/-- Default flags with `DecorateOutput = true` (and `PrintOutput = true`),
the pipe-capture configuration of the concrete scenario in the spec. -/
def pipeFlags : CmdFlags :=
  ⟨false, false, true, true, true, true, false,
   "aborting...", "continuing...", [0]⟩

/-- Pipe-capture flags with `ValidExitCodes = [1]`. -/
def flagsPipe1 : CmdFlags :=
  ⟨false, false, true, true, true, true, false,
   "aborting...", "continuing...", [1]⟩

/-- Environment in which every launched process exits with code 7 and
writes nothing. -/
def exit7EnvF : String → List String → ExecEnv :=
  fun _ _ => ⟨none, none, StartResult.started (WaitOutcome.exitErr 7) [] []⟩

/-- Environment in which every launched process exits with code 3 and
writes nothing. -/
def exit3Env : ExecEnv :=
  ⟨none, none, StartResult.started (WaitOutcome.exitErr 3) [] []⟩

/-- Modelled operating-system behaviour of `echo`: launching `echo args`
succeeds and writes the space-joined arguments as one stdout line.  Any
other program fails to start. -/
def echoEnvF : String → List String → ExecEnv :=
  fun prog args =>
    if prog = "echo" then
      ⟨none, none,
       StartResult.started WaitOutcome.ok [String.intercalate " " args] []⟩
    else ⟨none, none, StartResult.failed "executable file not found"⟩

/-- Environment of a process that starts, exits 0, and writes two stdout
lines and one stderr line. -/
def capEnv : ExecEnv :=
  ⟨none, none, StartResult.started WaitOutcome.ok ["a", "b"] ["oops"]⟩

/-- Environment in which creating the stdout pipe fails. -/
def pipeFailEnv : ExecEnv :=
  ⟨some "pipe error", none, StartResult.started WaitOutcome.ok [] []⟩

/-- Command string with an unterminated double quote:
`echo "abc` (built character-wise). -/
def unbalancedCmd : String :=
  String.mk ['e', 'c', 'h', 'o', ' ', dquote, 'a', 'b', 'c']

/-- Command string consisting of a single quote character. -/
def quoteOnlyCmd : String := String.mk [squote]

/-! ### Helper lemmas -/

theorem isValidExit_iff (valid : List Int) (code : Int) :
    isValidExit valid code = true ↔ code ∈ valid := by
  simp [isValidExit, List.any_eq_true]

theorem trimSpace_eq_nil_of_all {l : List Char}
    (h : l.all isGoSpace = true) : trimSpace l = [] := by
  have h1 : l.dropWhile isGoSpace = [] :=
    List.dropWhile_eq_nil_iff.mpr (fun x hx => List.all_eq_true.mp h x hx)
  simp [trimSpace, h1]

theorem stripAnsi_nil : stripAnsiCodes [] = [] := by
  rw [stripAnsiCodes]

theorem stripAnsi_cons_noEsc {c : Char} (h : c ≠ escChar) (t : List Char) :
    stripAnsiCodes (c :: t) = c :: stripAnsiCodes t := by
  rw [stripAnsiCodes]
  simp [h]

theorem stripAnsi_esc_match {rest rest2 : List Char}
    (h : matchAnsiTail rest = some rest2) :
    stripAnsiCodes (escChar :: rest) = stripAnsiCodes rest2 := by
  rw [stripAnsiCodes]
  rw [if_pos rfl]
  split
  · next r2 heq =>
      rw [heq] at h
      cases h
      rfl
  · next heq =>
      rw [heq] at h
      cases h

theorem stripAnsi_gray (b : List Char) :
    stripAnsiCodes (ansiGray ++ b) = stripAnsiCodes b :=
  stripAnsi_esc_match (by rfl)

theorem stripAnsi_red (b : List Char) :
    stripAnsiCodes (ansiRed ++ b) = stripAnsiCodes b :=
  stripAnsi_esc_match (by rfl)

theorem stripAnsi_green (b : List Char) :
    stripAnsiCodes (ansiGreen ++ b) = stripAnsiCodes b :=
  stripAnsi_esc_match (by rfl)

theorem stripAnsi_reset (b : List Char) :
    stripAnsiCodes (ansiReset ++ b) = stripAnsiCodes b :=
  stripAnsi_esc_match (by rfl)

theorem stripAnsi_append_noEsc {a : List Char} (b : List Char)
    (ha : ∀ c ∈ a, c ≠ escChar) :
    stripAnsiCodes (a ++ b) = a ++ stripAnsiCodes b := by
  induction a with
  | nil => simp
  | cons c t ih =>
      have hc : c ≠ escChar := ha c (by simp)
      have ht : ∀ x ∈ t, x ≠ escChar := fun x hx => ha x (by simp [hx])
      simp only [List.cons_append]
      rw [stripAnsi_cons_noEsc hc, ih ht]

theorem stripAnsi_noEsc {a : List Char} (ha : ∀ c ∈ a, c ≠ escChar) :
    stripAnsiCodes a = a := by
  have h := stripAnsi_append_noEsc (a := a) [] ha
  simpa [stripAnsi_nil] using h

theorem stripAnsi_statusIndicator (success : Bool) :
    stripAnsiCodes (statusIndicatorFor success)
      = ['[', ' ', if success then checkMark else crossMark, ' ', ']'] := by
  cases success
  · show stripAnsiCodes
      (['[', ' '] ++ (ansiRed ++ (crossMark :: (ansiReset ++ [' ', ']']))))
      = _
    rw [stripAnsi_append_noEsc _ (by decide), stripAnsi_red,
      stripAnsi_cons_noEsc (show crossMark ≠ escChar by decide),
      stripAnsi_reset, stripAnsi_noEsc (by decide)]
    rfl
  · show stripAnsiCodes
      (['[', ' '] ++ (ansiGreen ++ (checkMark :: (ansiReset ++ [' ', ']']))))
      = _
    rw [stripAnsi_append_noEsc _ (by decide), stripAnsi_green,
      stripAnsi_cons_noEsc (show checkMark ≠ escChar by decide),
      stripAnsi_reset, stripAnsi_noEsc (by decide)]
    rfl

theorem noEsc_of_isAsciiNoEsc {s : List Char} (h : isAsciiNoEsc s = true) :
    ∀ c ∈ s, c ≠ escChar := by
  intro c hc
  have hx := List.all_eq_true.mp h c hc
  exact (of_decide_eq_true hx).2

theorem noEsc_replicate_space (n : Nat) :
    ∀ c ∈ List.replicate n ' ', c ≠ escChar := by
  intro c hc
  rw [List.eq_of_mem_replicate hc]
  decide

theorem noEsc_bracketed {entry : List Char} (he : ∀ c ∈ entry, c ≠ escChar) :
    ∀ c ∈ bracketed entry, c ≠ escChar := by
  intro c hc
  simp [bracketed] at hc
  rcases hc with h | h | h
  · subst h; decide
  · exact he c h
  · subst h; decide

theorem getVisualLength_of_noEsc {s : List Char} (h : ∀ c ∈ s, c ≠ escChar) :
    getVisualLength s = s.length := by
  unfold getVisualLength
  rw [stripAnsi_noEsc h]

theorem getVisualLength_bracketed {entry : List Char}
    (he : ∀ c ∈ entry, c ≠ escChar) :
    getVisualLength (bracketed entry) = entry.length + 2 := by
  rw [getVisualLength_of_noEsc (noEsc_bracketed he)]
  simp [bracketed]

theorem stripAnsi_statusLineBase (entry msg : List Char) (success : Bool)
    (he : ∀ c ∈ entry, c ≠ escChar) (hm : ∀ c ∈ msg, c ≠ escChar) :
    stripAnsiCodes (statusLineBase entry msg success)
      = bracketed entry ++ (' ' :: msg) ++
        List.replicate
          (paddingWidthFor (getVisualLength (bracketed entry))
            (getVisualLength msg)) ' ' ++
        (' ' :: stripAnsiCodes (statusIndicatorFor success)) := by
  unfold statusLineBase addEmphasisGray
  simp only [List.append_assoc, List.cons_append]
  rw [stripAnsi_gray, stripAnsi_append_noEsc _ (noEsc_bracketed he),
    stripAnsi_reset, stripAnsi_cons_noEsc (show (' ' : Char) ≠ escChar by decide),
    stripAnsi_append_noEsc _ hm, stripAnsi_append_noEsc _ (noEsc_replicate_space _),
    stripAnsi_cons_noEsc (show (' ' : Char) ≠ escChar by decide)]

theorem stripAnsi_statusLineBase_length (entry msg : List Char) (success : Bool)
    (he : ∀ c ∈ entry, c ≠ escChar) (hm : ∀ c ∈ msg, c ≠ escChar) :
    (stripAnsiCodes (statusLineBase entry msg success)).length
      = (entry.length + 2) + 1 + msg.length +
        paddingWidthFor (entry.length + 2) msg.length + 1 + 5 := by
  rw [stripAnsi_statusLineBase entry msg success he hm,
    getVisualLength_bracketed he, getVisualLength_of_noEsc hm,
    stripAnsi_statusIndicator]
  simp [bracketed]
  omega

/-! ### Claim theorems -/

/-- Claim C1, counterexample: the claimed equivalence
`success ↔ exitCode ∈ validExitCodes` fails on a launch failure.  With
`ValidExitCodes = [1]` and the empty command, the result has
`ExitCode = 1 ∈ [1]` but `Success = false`, so the biconditional is false
at this input. -/
theorem C1_counterexample_launch_failure :
    ¬ (((execSystemCommand "" flagsValid1 trivEnvF).success = true) ↔
       (execSystemCommand "" flagsValid1 trivEnvF).exitCode
         ∈ flagsValid1.validExitCodes) := by decide

/-- Claim C1, amended: whenever the process was actually launched and
waited on (pipe creation and start succeeded), in either output mode,
`result.Success` is true exactly when `result.ExitCode` is a member of
`flags.ValidExitCodes`.  (On launch failures the code instead hard-codes
`ExitCode = 1, Success = false`, bypassing `ValidExitCodes`.) -/
theorem C1_success_iff_valid_when_launched (flags : CmdFlags) (env : ExecEnv)
    (w : WaitOutcome) (ol el : List String)
    (h1 : env.stdoutPipeErr = none) (h2 : env.stderrPipeErr = none)
    (h3 : env.start = StartResult.started w ol el) :
    ((execCommand env flags).success = true ↔
      (execCommand env flags).exitCode ∈ flags.validExitCodes) := by
  unfold execCommand
  cases hd : flags.decorateOutput
  · simp [hd, h3, isValidExit_iff]
  · simp [hd, h1, h2, h3, isValidExit_iff]

/-- Claim C1, witness: the amended theorem applied to a concrete launched
process exiting with code 3 under the default flags. -/
theorem C1_success_iff_witness :
    ((execCommand exit3Env defaultCmdFlags).success = true ↔
      (execCommand exit3Env defaultCmdFlags).exitCode
        ∈ defaultCmdFlags.validExitCodes) :=
  C1_success_iff_valid_when_launched defaultCmdFlags exit3Env
    (WaitOutcome.exitErr 3) [] [] rfl rfl rfl

/-- Claim C2: a command consisting only of whitespace makes
`execSystemCommand` return `{ExitCode: 1, Success: false, Error: "empty
command"}` for every environment, i.e. without consulting the operating
system at all (no launch is attempted). -/
theorem C2_empty_command_immediate (command : String) (flags : CmdFlags)
    (envf : String → List String → ExecEnv)
    (h : command.toList.all isGoSpace = true) :
    execSystemCommand command flags envf = ⟨1, false, "", "empty command"⟩ := by
  unfold execSystemCommand
  rw [if_pos (trimSpace_eq_nil_of_all h)]

/-- Claim C2, witness: the theorem applied to the two-space command. -/
theorem C2_empty_command_witness :
    execSystemCommand "  " defaultCmdFlags trivEnvF
      = ⟨1, false, "", "empty command"⟩ :=
  C2_empty_command_immediate "  " defaultCmdFlags trivEnvF (by decide)

/-- Claim C3, failing-input evaluation: with the flags built by
`RunCmdSilentStrict` (Strict=true, PrintStatus=false) and a command exiting
with code 7, `RunCmd` RETURNS the failed result instead of terminating the
program — `parseStatus` bails out before its `os.Exit` because
`PrintStatus` is false.  With the `RunCmdStrict` flags (PrintStatus=true)
the very same failing command does terminate the program with status 7,
showing the exit is guarded by `PrintStatus`, contradicting the `Strict`
field's stated purpose ("Whether to exit on command failure"). -/
theorem C3_strict_silent_failure_returns :
    runCmd "terraform plan" "planning" (some runCmdSilentStrictFlags)
        exit7EnvF none
      = RunOutcome.returned ⟨7, false, "", ""⟩
    ∧ runCmd "terraform plan" "planning" (some runCmdStrictFlags)
        exit7EnvF none
      = RunOutcome.exited 7 := ⟨by decide, by decide⟩

/-- Claim C4: in pipe-capture mode (DecorateOutput=true), for a process
that starts and writes `ol` to stdout and `el` to stderr, the result's
`Output` is exactly those stdout lines in order, each newline-terminated,
and `Error` is exactly the stderr lines in order; moreover the concrete
scenario `run("echo hello", "msg", flags{decorateOutput:true,
printOutput:true})` yields exit code 0, success, and captured stdout
`"hello\n"`. -/
theorem C4_pipe_capture_buffers (flags : CmdFlags) (env : ExecEnv)
    (w : WaitOutcome) (ol el : List String)
    (hd : flags.decorateOutput = true)
    (h1 : env.stdoutPipeErr = none) (h2 : env.stderrPipeErr = none)
    (h3 : env.start = StartResult.started w ol el) :
    ((execCommand env flags).output = joinLines ol
      ∧ (execCommand env flags).error = joinLines el)
    ∧ runCmd "echo hello" "msg" (some pipeFlags) echoEnvF none
        = RunOutcome.returned ⟨0, true, "hello\n", ""⟩ := by
  refine ⟨?_, by decide⟩
  unfold execCommand
  simp [hd, h1, h2, h3]

/-- Claim C4, witness: the theorem applied to a process writing two stdout
lines and one stderr line. -/
theorem C4_pipe_capture_witness :
    (execCommand capEnv pipeFlags).output = joinLines ["a", "b"]
    ∧ (execCommand capEnv pipeFlags).error = joinLines ["oops"] :=
  (C4_pipe_capture_buffers pipeFlags capEnv WaitOutcome.ok ["a", "b"] ["oops"]
    rfl rfl rfl rfl).1

/-- Claim C5: in pass-through mode (DecorateOutput=false) every command
that launches yields a result with empty `Output` and empty `Error`,
whatever the process wrote to its streams. -/
theorem C5_passthrough_empty_capture (flags : CmdFlags) (env : ExecEnv)
    (w : WaitOutcome) (ol el : List String)
    (hd : flags.decorateOutput = false)
    (h3 : env.start = StartResult.started w ol el) :
    (execCommand env flags).output = "" ∧ (execCommand env flags).error = "" := by
  unfold execCommand
  simp [hd, h3]

/-- Claim C5, witness: the theorem applied to a process that writes to both
streams; nothing is captured. -/
theorem C5_passthrough_witness :
    (execCommand capEnv defaultCmdFlags).output = ""
    ∧ (execCommand capEnv defaultCmdFlags).error = "" :=
  C5_passthrough_empty_capture defaultCmdFlags capEnv WaitOutcome.ok
    ["a", "b"] ["oops"] rfl rfl

/-- Claim C6, counterexample: a successfully launched command (pipe-capture
mode, exit code 0, success) that writes one stderr line produces a result
whose `Error` field is NON-empty — the code stores the captured stderr
buffer in `Error`, so `Error` is not reserved for launch failures. -/
theorem C6_counterexample_captured_stderr :
    (execCommand capEnv pipeFlags).success = true
    ∧ (execCommand capEnv pipeFlags).exitCode = 0
    ∧ (execCommand capEnv pipeFlags).error ≠ "" := by decide

/-- Claim C6, amended: for a launched command, `Error` is empty in
pass-through mode, while in pipe-capture mode it holds the captured stderr
(newline-joined lines), hence it is non-empty exactly when the command
wrote to stderr; launch-failure detail appears in `Error` only when the
launch itself failed. -/
theorem C6_amended_error_content (flags : CmdFlags) (env : ExecEnv)
    (w : WaitOutcome) (ol el : List String)
    (h1 : env.stdoutPipeErr = none) (h2 : env.stderrPipeErr = none)
    (h3 : env.start = StartResult.started w ol el) :
    (execCommand env flags).error
      = if flags.decorateOutput then joinLines el else "" := by
  unfold execCommand
  cases hd : flags.decorateOutput
  · simp [hd, h3]
  · simp [hd, h1, h2, h3]

/-- Claim C6, witness: the amended theorem applied to the stderr-writing
process in pipe-capture mode. -/
theorem C6_amended_witness :
    (execCommand capEnv pipeFlags).error
      = if pipeFlags.decorateOutput then joinLines ["oops"] else "" :=
  C6_amended_error_content pipeFlags capEnv WaitOutcome.ok ["a", "b"] ["oops"]
    rfl rfl rfl

/-- Claim C7: for ASCII, escape-free entrypoint script and message, when
the message fits the budget (entrypoint tag + space + message + at least
one padding space + space + 5-wide status indicator within 120 columns)
the rendered status line measures exactly 120 columns after ANSI
stripping; when it exceeds the budget the padding falls back to the
one-space floor and the stripped line measures entrypoint+message+10
columns. -/
theorem C7_status_line_alignment (entry msg : List Char) (result : CmdResult)
    (flags : CmdFlags)
    (he : isAsciiNoEsc entry = true) (hm : isAsciiNoEsc msg = true)
    (hp : flags.printOutcome = false) :
    (entry.length + msg.length + 10 ≤ 120 →
      (stripAnsiCodes (statusLineFull entry msg result flags)).length = 120)
    ∧ (120 < entry.length + msg.length + 10 →
      paddingWidthFor (getVisualLength (bracketed entry)) (getVisualLength msg)
          = 1
      ∧ (stripAnsiCodes (statusLineFull entry msg result flags)).length
          = entry.length + msg.length + 10) := by
  have he2 := noEsc_of_isAsciiNoEsc he
  have hm2 := noEsc_of_isAsciiNoEsc hm
  have hfull : statusLineFull entry msg result flags
      = statusLineBase entry msg result.success := by
    unfold statusLineFull
    simp [hp]
  have hlen := stripAnsi_statusLineBase_length entry msg result.success he2 hm2
  constructor
  · intro hfit
    rw [hfull, hlen]
    simp only [paddingWidthFor]
    split_ifs with hc
    · omega
    · omega
  · intro hover
    rw [getVisualLength_bracketed he2, getVisualLength_of_noEsc hm2]
    constructor
    · simp only [paddingWidthFor]
      split_ifs with hc
      · rfl
      · omega
    · rw [hfull, hlen]
      simp only [paddingWidthFor]
      split_ifs with hc
      · omega
      · omega

/-- Claim C7, witness: entrypoint `tf`, message `msg`, successful result,
default flags — the stripped status line is exactly 120 columns. -/
theorem C7_status_line_witness :
    (stripAnsiCodes
      (statusLineFull ['t', 'f'] ['m', 's', 'g'] ⟨0, true, "", ""⟩
        defaultCmdFlags)).length = 120 :=
  (C7_status_line_alignment ['t', 'f'] ['m', 's', 'g'] ⟨0, true, "", ""⟩
    defaultCmdFlags (by decide) (by decide) rfl).1 (by decide)

/-- Claim C8: the Runner is total — for every command string (unbalanced
quotes included), flags and environment, `RunCmd` produces a defined
outcome, and under non-strict flags it always returns a result to the
caller; concretely, the unterminated-quote command `echo "abc` parses
without error (the dangling quote opens a quoted run that extends to the
end of the string). -/
theorem C8_runner_total (command message : String) (flags : CmdFlags)
    (envf : String → List String → ExecEnv) (failMsg : Option String) :
    ((∃ r, runCmd command message (some flags) envf failMsg
        = RunOutcome.returned r)
      ∨ (∃ c, runCmd command message (some flags) envf failMsg
        = RunOutcome.exited c))
    ∧ (flags.strict = false →
        ∃ r, runCmd command message (some flags) envf failMsg
          = RunOutcome.returned r)
    ∧ parseCommand unbalancedCmd = ("echo", ["abc"]) := by
  refine ⟨?_, ?_, by decide⟩
  · unfold runCmd
    cases h : parseStatusExit (execSystemCommand command flags envf) flags with
    | none =>
        exact Or.inl ⟨execSystemCommand command flags envf, by simp [h]⟩
    | some c => exact Or.inr ⟨c, by simp [h]⟩
  · intro hs
    have hnone : parseStatusExit (execSystemCommand command flags envf) flags
        = none := by
      unfold parseStatusExit
      simp [hs]
    unfold runCmd
    exact ⟨execSystemCommand command flags envf, by simp [hnone]⟩

/-- Claim C8, witness: running the unterminated-quote command under the
default (non-strict) flags returns a result. -/
theorem C8_runner_total_witness :
    ∃ r, runCmd unbalancedCmd "msg" (some defaultCmdFlags) trivEnvF none
      = RunOutcome.returned r :=
  (C8_runner_total unbalancedCmd "msg" defaultCmdFlags trivEnvF none).2.1 rfl

/-- Claim C9: every pre-launch failure — tokenization yielding no program
(for example a command of only quote characters), a pipe-creation error in
pipe-capture mode, or a start error in either mode — produces a result with
`ExitCode = 1` and `Success = false` for EVERY `ValidExitCodes` list, even
one containing 1. -/
theorem C9_launch_failure_forces_exit1 (flags : CmdFlags) (env : ExecEnv)
    (envf : String → List String → ExecEnv) (command : String)
    (h1 : (parseCommand command).1 = "")
    (h2 : (flags.decorateOutput = true
            ∧ (env.stdoutPipeErr ≠ none ∨ env.stderrPipeErr ≠ none))
          ∨ (∃ m, env.start = StartResult.failed m)) :
    execSystemCommand command flags envf = ⟨1, false, "", "empty command"⟩
    ∧ (execCommand env flags).exitCode = 1
    ∧ (execCommand env flags).success = false := by
  refine ⟨?_, ?_⟩
  · unfold execSystemCommand
    by_cases ht : trimSpace command.toList = []
    · rw [if_pos ht]
    · rw [if_neg ht]
      simp [h1]
  · rcases h2 with ⟨hd, hp⟩ | ⟨m, hm⟩
    · unfold execCommand
      rcases hp with hp | hp
      · cases hso : env.stdoutPipeErr with
        | none => exact absurd hso hp
        | some e => simp [hd, hso]
      · cases hso : env.stdoutPipeErr with
        | some e => simp [hd, hso]
        | none =>
            cases hse : env.stderrPipeErr with
            | none => exact absurd hse hp
            | some e => simp [hd, hso, hse]
    · unfold execCommand
      cases hd : flags.decorateOutput
      · simp [hd, hm]
      · cases hso : env.stdoutPipeErr with
        | some e => simp [hd, hso]
        | none =>
            cases hse : env.stderrPipeErr with
            | some e => simp [hd, hso, hse]
            | none => simp [hd, hso, hse, hm]

/-- Claim C9, witness: a single-quote command and a failing stdout pipe,
both under pipe-capture flags whose `ValidExitCodes` is `[1]` — the results
still carry `ExitCode = 1` with `Success = false`. -/
theorem C9_launch_failure_witness :
    execSystemCommand quoteOnlyCmd flagsPipe1 trivEnvF
      = ⟨1, false, "", "empty command"⟩
    ∧ (execCommand pipeFailEnv flagsPipe1).exitCode = 1
    ∧ (execCommand pipeFailEnv flagsPipe1).success = false :=
  C9_launch_failure_forces_exit1 flagsPipe1 pipeFailEnv trivEnvF quoteOnlyCmd
    (by decide) (Or.inl ⟨rfl, Or.inl (by decide)⟩)

/-- Claim C10: calling `RunCmd` with nil flags is exactly calling it with
`DefaultCmdFlags()`, for every command, message, environment and fail
message. -/
theorem C10_nil_flags_behaves_as_default (command message : String)
    (envf : String → List String → ExecEnv) (failMsg : Option String) :
    runCmd command message none envf failMsg
      = runCmd command message (some defaultCmdFlags) envf failMsg := rfl

end TfManage
